import Mathlib

/-!
Verification of the routes microservice (NestJS + Mongoose CRUD backend).

The development shallowly embeds the repository's route data-access layer
(`src/routes/routes.service.ts`), its Mongoose schema
(`src/routes/schema/routes.schema.ts`), the uniform response envelope
(`src/common/api-response.dto.ts`) and the HTTP / message-pattern handlers
(`src/routes/routes.controller.ts`).  Store effects (time, UUIDs, Mongo
document ids, store failures) are passed as explicit parameters; the Mongo
collection is a list of documents threaded through each operation.
-/

/-- Embedded coordinate subdocument (`Coordinate` in `routes.schema.ts`):
`name` is optional (`required: false`), `lat`/`lng` required.  Latitude and
longitude are JS numbers; no claim performs arithmetic on them, so they are
embedded as integers. -/
structure Coordinate where
  name : Option String
  lat : Int
  lng : Int
deriving DecidableEq, Repr

/-- Embedded `Distance` subdocument: `value` (meters) and formatted `text`. -/
structure Distance where
  value : Int
  text : String
deriving DecidableEq, Repr

/-- Embedded `Duration` subdocument: `value` (seconds) and formatted `text`. -/
structure Duration where
  value : Int
  text : String
deriving DecidableEq, Repr

/-- Stored route document (`Route` in `routes.schema.ts`).  `id` is the
store-assigned Mongo `_id` (opaque string here), `travelMode` is stored as a
plain string (the schema declares `type: String`; the DTO restricts it to the
four `TravelMode` values upstream).  `createdAt`/`updatedAt` are timestamps in
milliseconds, embedded as naturals. -/
structure Route where
  id : String
  routeId : String
  name : String
  travelMode : String
  distance : Distance
  duration : Duration
  origin : Coordinate
  destination : Coordinate
  waypoints : List Coordinate
  path : List Coordinate
  createdAt : Nat
  updatedAt : Nat
  userId : Option String
deriving DecidableEq, Repr

/-- The `{routes, total}` pair built by `findAll` and `searchRoutes` in
`routes.service.ts`. -/
structure PageData where
  routes : List Route
  total : Nat
deriving DecidableEq, Repr

/-- The `ApiResponse` instance produced inside the service layer by
`findAll`/`searchRoutes` (`ApiResponse.success({routes, total}, …)` in
`routes.service.ts`).  It is the same TS class as the controller-level
envelope; it gets its own Lean type because the controller envelope nests it
inside its `data` field. -/
structure InnerResponse where
  success : Bool
  statusCode : Nat
  message : String
  data : Option PageData
  errors : Option String
deriving DecidableEq, Repr

/-- Possible values of the controller envelope's `data` field: a single route
document, a bare `{routes, total}` pair, or a nested service-level envelope. -/
inductive Payload where
  | route (r : Route)
  | pageData (p : PageData)
  | wrapped (e : InnerResponse)
deriving DecidableEq, Repr

/-- Uniform response envelope (`ApiResponse` in `api-response.dto.ts`). -/
structure ApiResponse where
  success : Bool
  statusCode : Nat
  message : String
  data : Option Payload
  errors : Option String
deriving DecidableEq, Repr

/-- Default status code of `ApiResponse.success` (`HttpStatus.OK`). -/
def defaultSuccessCode : Nat := 200

/-- Default status code of `ApiResponse.error` (`HttpStatus.BAD_REQUEST`). -/
def defaultErrorCode : Nat := 400

/-- Static constructor `ApiResponse.success(data, message, statusCode)`:
`success = true`, `data` set, `errors` absent. -/
def ApiResponse.mkSuccess (d : Payload) (message : String) (statusCode : Nat) :
    ApiResponse :=
  ⟨true, statusCode, message, some d, none⟩

/-- Static constructor `ApiResponse.error(message, errors, statusCode)`:
`success = false`, `data = null`. -/
def ApiResponse.mkError (message : String) (errors : Option String)
    (statusCode : Nat) : ApiResponse :=
  ⟨false, statusCode, message, none, errors⟩

/-- Service-level occurrence of `ApiResponse.success` wrapping a
`{routes, total}` pair. -/
def InnerResponse.mkSuccess (d : PageData) (message : String)
    (statusCode : Nat) : InnerResponse :=
  ⟨true, statusCode, message, some d, none⟩

/-- State of the Mongo collection backing the service: the documents plus an
optional pending store failure.  When `failure` is set, every store round trip
rejects with that message (modelling connectivity/constraint failures of the
black-box store, which the service lets bubble to the controller). -/
structure RouteStore where
  docs : List Route
  failure : Option String
deriving DecidableEq, Repr

/-- Comparison used by `.sort({ createdAt: -1 })`: `a` may come before `b`
when `a.createdAt ≥ b.createdAt`. -/
def createdDesc (a b : Route) : Bool := b.createdAt ≤ a.createdAt

/-- Insertion of a route into a list already sorted by `createdAt`
descending. -/
def insertByCreatedAt (r : Route) : List Route → List Route
  | [] => [r]
  | x :: xs => if createdDesc r x then r :: x :: xs else x :: insertByCreatedAt r xs

/-- Model of the Mongo sort `.sort({ createdAt: -1 })` used by `findAll` and
`searchRoutes`: sort by `createdAt` descending (Mongo leaves the relative
order of ties unspecified; this model fixes one such order). -/
def sortByCreatedAtDesc : List Route → List Route
  | [] => []
  | x :: xs => insertByCreatedAt x (sortByCreatedAtDesc xs)

/-- The `filters: { limit?, page? }` argument of `findAll`/`searchRoutes`. -/
structure PageFilters where
  limit : Option Nat
  page : Option Nat
deriving DecidableEq, Repr

/-- Offset pagination applied by `findAll`/`searchRoutes`:
`.skip((page − 1) * limit).limit(limit)` over the sorted documents. -/
def pageSlice (docs : List Route) (page limit : Nat) : List Route :=
  ((sortByCreatedAtDesc docs).drop ((page - 1) * limit)).take limit

/-- Model of `RoutesService.findAll`: defaults `limit = 10`, `page = 1`,
counts all documents with `countDocuments()` and fetches one sorted page;
wraps both in a service-level `ApiResponse.success` with the message
`'Routes  retrieved successfully'` (double space as in the source). -/
def RoutesService.findAll (st : RouteStore) (filters : PageFilters) :
    Except String InnerResponse :=
  match st.failure with
  | some e => .error e
  | none =>
    let limit := filters.limit.getD 10
    let page := filters.page.getD 1
    .ok (InnerResponse.mkSuccess
      ⟨pageSlice st.docs page limit, st.docs.length⟩
      "Routes  retrieved successfully" 200)

/-- Model of `this.routeModel.findById(id)`. -/
def findById (docs : List Route) (id : String) : Option Route :=
  docs.find? (fun r => r.id == id)

/-- Model of `RoutesService.findOne`: returns the document or the `null`
sentinel; store failures propagate as errors. -/
def RoutesService.findOne (st : RouteStore) (id : String) :
    Except String (Option Route) :=
  match st.failure with
  | some e => .error e
  | none => .ok (findById st.docs id)

/-- Modelled from the spec: `update-route.dto.ts` is imported by the service
and the controller but absent from `src/`.  The spec describes update as a
partial field merge over the create fields (§3 lifecycle, §4.2), so every
field of `CreateRouteDto` is optional here and identifiers are absent. -/
structure UpdateRouteDto where
  name : Option String
  travelMode : Option String
  distance : Option Distance
  duration : Option Duration
  origin : Option Coordinate
  destination : Option Coordinate
  waypoints : Option (List Coordinate)
  path : Option (List Coordinate)
  userId : Option String
deriving DecidableEq, Repr

/-- Effect of `findByIdAndUpdate(id, updateRouteDto, { new: true })` on the
matched document: Mongoose `$set`s each top-level key present in the update
object (nested objects replaced wholesale), leaves absent keys alone, and —
because the schema has `timestamps: true` — refreshes `updatedAt`.
`_id`, `routeId` and `createdAt` are untouched (the DTO carries no
identifiers). -/
def applyUpdate (r : Route) (u : UpdateRouteDto) (now : Nat) : Route :=
  { r with
    name := u.name.getD r.name
    travelMode := u.travelMode.getD r.travelMode
    distance := u.distance.getD r.distance
    duration := u.duration.getD r.duration
    origin := u.origin.getD r.origin
    destination := u.destination.getD r.destination
    waypoints := u.waypoints.getD r.waypoints
    path := u.path.getD r.path
    userId := (u.userId.map some).getD r.userId
    updatedAt := now }

/-- Model of `RoutesService.update`: `findByIdAndUpdate` with `{ new: true }`
returns the post-update document or the `null` sentinel; the collection keeps
every other document (replacement by `_id`, which Mongo keeps unique).  Note
that `findByIdAndUpdate` runs no schema validators by default. -/
def RoutesService.update (st : RouteStore) (id : String) (u : UpdateRouteDto)
    (now : Nat) : Except String (Option Route × List Route) :=
  match st.failure with
  | some e => .error e
  | none =>
    match findById st.docs id with
    | none => .ok (none, st.docs)
    | some r =>
      let r2 := applyUpdate r u now
      .ok (some r2, st.docs.map (fun x => if x.id == id then r2 else x))

/-- Model of `RoutesService.remove`: `findByIdAndDelete` returns the removed
document or the `null` sentinel and deletes the document with that `_id`. -/
def RoutesService.remove (st : RouteStore) (id : String) :
    Except String (Option Route × List Route) :=
  match st.failure with
  | some e => .error e
  | none =>
    match findById st.docs id with
    | none => .ok (none, st.docs)
    | some r => .ok (some r, st.docs.eraseP (fun x => x.id == id))

/-- Accumulator pass of the decimal rendering: peels off the least
significant digit first; `fuel` bounds the recursion depth (any `fuel > n`
is enough). -/
def natToDecimalAux : Nat → Nat → List Char → List Char
  | 0, _, acc => acc
  | fuel + 1, n, acc =>
    if n < 10 then Char.ofNat (48 + n) :: acc
    else natToDecimalAux fuel (n / 10) (Char.ofNat (48 + n % 10) :: acc)

/-- Decimal rendering of a natural number, as JS `Number.prototype.toString`
produces for a non-negative integer timestamp (`new Date().getTime()`). -/
def natToDecimal (n : Nat) : List Char :=
  natToDecimalAux (n + 1) n []

/-- Model of `RoutesService.generateRouteId`: builds
`route-<timestamp>-<uuid.substring(0, 8)>` from the current time in
milliseconds and a freshly generated v4 UUID string, both passed
explicitly. -/
def generateRouteId (nowMs : Nat) (uuid : String) : String :=
  String.mk ("route-".toList ++ natToDecimal nowMs ++ '-' :: uuid.toList.take 8)

/-- Raw JSON body bound to `CreateRouteDto`.  `main.ts` installs no global
`ValidationPipe`, so the class-validator decorators never run and unknown
keys such as `routeId` survive on the runtime object — hence the optional
`routeId` field.  `waypoints` and `userId` are optional in the DTO. -/
structure CreateRouteBody where
  routeId : Option String
  name : String
  travelMode : String
  distance : Distance
  duration : Duration
  origin : Coordinate
  destination : Coordinate
  waypoints : Option (List Coordinate)
  path : List Coordinate
  userId : Option String
deriving DecidableEq, Repr

/-- Model of the object literal `{ ...createRouteDto, routeId }` in
`RoutesService.create`: the spread copies every key of the body (including a
client-sent `routeId` when present) and the trailing `routeId` key then
overrides it with the generated identifier. -/
def withGeneratedRouteId (body : CreateRouteBody) (rid : String) :
    CreateRouteBody :=
  { body with routeId := some rid }

/-- Model of `new this.routeModel(routeData)`: materialises a document from
the plain object, applying the schema defaults (`waypoints` defaults to `[]`,
`createdAt`/`updatedAt` default to the current time) and the store-assigned
`_id`.  A document without `routeId` cannot satisfy the schema. -/
def buildRouteDoc (rd : CreateRouteBody) (newId : String) (now : Nat) :
    Option Route :=
  match rd.routeId with
  | none => none
  | some rid =>
    some
      { id := newId
        routeId := rid
        name := rd.name
        travelMode := rd.travelMode
        distance := rd.distance
        duration := rd.duration
        origin := rd.origin
        destination := rd.destination
        waypoints := rd.waypoints.getD []
        path := rd.path
        createdAt := now
        updatedAt := now
        userId := rd.userId }

/-- Mongoose `required: true` checks run by `save()` (Mongoose ≥ 5, the
versions compatible with the `@nestjs/mongoose` decorator API this codebase
uses): a required string must be non-empty (`SchemaString.checkRequired`),
while a required array only has to be non-nullish — an empty array passes.
The remaining required fields (`distance`, `duration`, `origin`,
`destination`, `path` itself, `lat`/`lng`) are present by construction in
this embedding's types. -/
def validForSave (r : Route) : Bool :=
  !(r.routeId == "") && !(r.name == "") && !(r.travelMode == "") &&
    !(r.distance.text == "") && !(r.duration.text == "")

/-- Model of `RoutesService.create`: generates the `routeId`, spreads the body
and overrides `routeId`, then `save()`s the document.  `save` enforces the
schema `required` checks and the unique index on `routeId`; a rejected save
surfaces as a thrown store error, which `create` rethrows. -/
def RoutesService.create (st : RouteStore) (body : CreateRouteBody)
    (nowMs : Nat) (uuid : String) (newId : String) :
    Except String (Route × List Route) :=
  match st.failure with
  | some e => .error e
  | none =>
    let rid := generateRouteId nowMs uuid
    let routeData := withGeneratedRouteId body rid
    match buildRouteDoc routeData newId nowMs with
    | none => .error "Route validation failed: routeId is required"
    | some doc =>
      if validForSave doc && st.docs.all (fun x => !(x.routeId == doc.routeId))
      then .ok (doc, st.docs ++ [doc])
      else .error "Route validation failed"

/-- Token of the regular-expression fragment exercised by `searchRoutes`: a
literal character or the `.` metacharacter. -/
inductive RegexTok where
  | lit (c : Char)
  | anyChar
deriving DecidableEq, Repr

/-- Interpretation of the `searchText` string as a Mongo `$regex` pattern
with option `'i'`, modelled for the fragment these theorems exercise:
sequences of literal characters and the `.` metacharacter.  Case
insensitivity is modelled by lower-casing pattern literals and, in
`tokMatch`, the subject character. -/
def parseSearchRegex (s : String) : List RegexTok :=
  s.toList.map (fun c => if c = '.' then RegexTok.anyChar else RegexTok.lit c.toLower)

/-- A single pattern token against a single subject character. -/
def tokMatch : RegexTok → Char → Bool
  | RegexTok.lit c, d => c == d.toLower
  | RegexTok.anyChar, _ => true

/-- The whole token sequence against the start of the subject. -/
def toksMatchHere : List RegexTok → List Char → Bool
  | [], _ => true
  | _ :: _, [] => false
  | t :: ts, c :: cs => tokMatch t c && toksMatchHere ts cs

/-- Unanchored search: the token sequence matches starting at some position
of the subject, as Mongo's `$regex` does. -/
def toksFind : List RegexTok → List Char → Bool
  | ts, [] => toksMatchHere ts []
  | ts, c :: cs => toksMatchHere ts (c :: cs) || toksFind ts cs

/-- The condition `{ field: { $regex: searchText, $options: 'i' } }` on one
string value. -/
def regexTest (pattern subject : String) : Bool :=
  toksFind (parseSearchRegex pattern) subject.toList

/-- A `$regex` condition on a possibly absent field: a missing field never
matches. -/
def fieldRegexMatch (pattern : String) (field : Option String) : Bool :=
  match field with
  | none => false
  | some s => regexTest pattern s

/-- The `$or` search predicate of `RoutesService.searchRoutes` over the five
queried fields; `'waypoints.name'` matches when any array element's `name`
matches. -/
def routeMatchesSearch (searchText : String) (r : Route) : Bool :=
  fieldRegexMatch searchText (some r.routeId) ||
    fieldRegexMatch searchText (some r.name) ||
    fieldRegexMatch searchText r.origin.name ||
    fieldRegexMatch searchText r.destination.name ||
    r.waypoints.any (fun w => fieldRegexMatch searchText w.name)

/-- Model of `RoutesService.searchRoutes`: counts all matches of the `$or`
query and fetches one page of them sorted by `createdAt` descending, wrapped
in a service-level `ApiResponse.success`. -/
def RoutesService.searchRoutes (st : RouteStore) (searchText : String)
    (filters : PageFilters) : Except String InnerResponse :=
  match st.failure with
  | some e => .error e
  | none =>
    let limit := filters.limit.getD 10
    let page := filters.page.getD 1
    let matched := st.docs.filter (routeMatchesSearch searchText)
    .ok (InnerResponse.mkSuccess
      ⟨((sortByCreatedAtDesc matched).drop ((page - 1) * limit)).take limit,
        matched.length⟩
      "Routes  retrieved successfully" 200)

/-- Case-insensitive substring containment, the reading the spec gives of the
search: `needle` occurs contiguously in `hay` after lower-casing both. -/
def containsCI (hay needle : String) : Bool :=
  decide ((needle.toList.map Char.toLower) <:+: (hay.toList.map Char.toLower))

/-- Case-insensitive substring test on a possibly absent field. -/
def fieldContainsCI (needle : String) (field : Option String) : Bool :=
  match field with
  | none => false
  | some s => containsCI s needle

/-- The search predicate as the spec words it: a case-insensitive substring
match against `routeId`, `name`, `origin.name`, `destination.name` or any
`waypoints[].name` (logical OR).  Stated for comparison with
`routeMatchesSearch`, the predicate the code actually runs. -/
def specMatchesSearch (searchText : String) (r : Route) : Bool :=
  fieldContainsCI searchText (some r.routeId) ||
    fieldContainsCI searchText (some r.name) ||
    fieldContainsCI searchText r.origin.name ||
    fieldContainsCI searchText r.destination.name ||
    r.waypoints.any (fun w => fieldContainsCI searchText w.name)

/-- Characters the PCRE-style `$regex` engine treats specially; `searchText`
free of these is matched purely literally. -/
def regexMetaChars : List Char :=
  ['.', '^', '$', '*', '+', '?', '(', ')', '[', ']',
    Char.ofNat 123, Char.ofNat 125, '|', '\\']

/-- Whether a character is a regex metacharacter. -/
def isRegexMeta (c : Char) : Bool := regexMetaChars.contains c

/-- ASCII decimal digit test, used to state the
`route-<digits>-<8 hex chars>` pattern. -/
def isDigitChar (c : Char) : Bool := decide ('0' ≤ c) && decide (c ≤ '9')

/-- ASCII hexadecimal digit test. -/
def isHexDigitChar (c : Char) : Bool :=
  isDigitChar c || (decide ('a' ≤ c) && decide (c ≤ 'f')) ||
    (decide ('A' ≤ c) && decide (c ≤ 'F'))

/-- Strips an expected literal from the front of a character list, failing
when the input does not start with it. -/
def dropLiteral : List Char → List Char → Option (List Char)
  | [], s => some s
  | _ :: _, [] => none
  | c :: cs, d :: ds => if c = d then dropLiteral cs ds else none

/-- Checker for the spec's `route-<digits>-<8 hex chars>` pattern: the
literal `route-`, a non-empty run of decimal digits, a hyphen, and exactly
eight hexadecimal characters ending the string. -/
def matchesRouteIdPattern (s : String) : Bool :=
  match dropLiteral "route-".toList s.toList with
  | none => false
  | some rest =>
    let ds := rest.takeWhile isDigitChar
    let rest2 := rest.dropWhile isDigitChar
    !ds.isEmpty &&
      (match rest2 with
       | '-' :: h => (h.length == 8) && h.all isHexDigitChar
       | _ => false)

/-- An update payload that empties `path`, as a client of `PATCH /routes/:id`
can send (class-validator never runs — no `ValidationPipe` is registered —
and `@IsNotEmpty` would accept `[]` anyway). -/
def emptyPathUpdate : UpdateRouteDto :=
  ⟨none, none, none, none, none, none, none, some [], none⟩

/-- Sortedness in the sense of `.sort({ createdAt: -1 })`: every route's
`createdAt` is at least every later route's. -/
def SortedDesc (l : List Route) : Prop :=
  List.Pairwise (fun a b => b.createdAt ≤ a.createdAt) l

/-- Concrete coordinates and routes used as evaluation witnesses. -/
def coordHome : Coordinate := ⟨some "Home", 40, -74⟩

def coordWork : Coordinate := ⟨some "Work", 41, -73⟩

def routeA : Route :=
  ⟨"idA", "route-1-aaaaaaaa", "Home to Work", "DRIVING", ⟨12345, "12.3 km"⟩,
    ⟨3600, "1 hour"⟩, coordHome, coordWork, [], [coordHome, coordWork], 100,
    100, some "user-1"⟩

def routeB : Route :=
  ⟨"idB", "route-2-bbbbbbbb", "Office loop", "WALKING", ⟨500, "0.5 km"⟩,
    ⟨600, "10 mins"⟩, coordWork, coordWork, [coordHome], [coordWork, coordHome],
    200, 200, none⟩

def storeAB : RouteStore := ⟨[routeA, routeB], none⟩

def emptyUpdate : UpdateRouteDto :=
  ⟨none, none, none, none, none, none, none, none, none⟩

/-- The document that `create` persists for a body identical to `bodyW`
except for an empty `path`. -/
def emptyPathRoute : Route :=
  { id := "obj1"
    routeId := generateRouteId 5 "abcd1234-e5f6"
    name := "Home to Work"
    travelMode := "DRIVING"
    distance := ⟨1, "1 m"⟩
    duration := ⟨1, "1 s"⟩
    origin := coordHome
    destination := coordWork
    waypoints := []
    path := []
    createdAt := 5
    updatedAt := 5
    userId := none }

def bodyW : CreateRouteBody :=
  ⟨none, "Home to Work", "DRIVING", ⟨1, "1 m"⟩, ⟨1, "1 s"⟩, coordHome,
    coordWork, none, [coordHome], none⟩

/-- HTTP `POST /routes` handler (`RoutesController.create`): success →
`ApiResponse.success(result, 'Route created successfully', 201)`; thrown
failure → `ApiResponse.error('Failed to create route', message, 400)`.  The
pair's second component is the collection after the request. -/
def RoutesController.create (st : RouteStore) (body : CreateRouteBody)
    (nowMs : Nat) (uuid newId : String) : ApiResponse × List Route :=
  match RoutesService.create st body nowMs uuid newId with
  | .error msg =>
    (ApiResponse.mkError "Failed to create route" (some msg) 400, st.docs)
  | .ok (r, docs2) =>
    (ApiResponse.mkSuccess (Payload.route r) "Route created successfully" 201,
      docs2)

/-- HTTP `GET /routes` handler (`RoutesController.findAll`): wraps whatever
the service returned — itself already an `ApiResponse` — in a fresh success
envelope with the default status code; thrown failure →
`ApiResponse.error('Failed to fetch routes', message, 500)`. -/
def RoutesController.findAll (st : RouteStore) (limit page : Nat) :
    ApiResponse :=
  match RoutesService.findAll st ⟨some limit, some page⟩ with
  | .error msg => ApiResponse.mkError "Failed to fetch routes" (some msg) 500
  | .ok inner =>
    ApiResponse.mkSuccess (Payload.wrapped inner) "Routes retrieved successfully"
      defaultSuccessCode

/-- HTTP `GET /routes/search` handler (`RoutesController.searchRoutes`). -/
def RoutesController.search (st : RouteStore) (searchText : String)
    (page limit : Nat) : ApiResponse :=
  match RoutesService.searchRoutes st searchText ⟨some limit, some page⟩ with
  | .error msg => ApiResponse.mkError "Failed to search routes" (some msg) 500
  | .ok inner =>
    ApiResponse.mkSuccess (Payload.wrapped inner) "Routes found successfully"
      defaultSuccessCode

/-- HTTP `GET /routes/:id` handler (`RoutesController.findOne`): `null`
sentinel → 404 `'Route not found'`; thrown failure → 500. -/
def RoutesController.findOne (st : RouteStore) (id : String) : ApiResponse :=
  match RoutesService.findOne st id with
  | .error msg => ApiResponse.mkError "Failed to fetch route" (some msg) 500
  | .ok none =>
    ApiResponse.mkError "Route not found"
      (some ("No route found with ID: " ++ id)) 404
  | .ok (some r) =>
    ApiResponse.mkSuccess (Payload.route r) "Route retrieved successfully"
      defaultSuccessCode

/-- HTTP `PATCH /routes/:id` handler (`RoutesController.update`). -/
def RoutesController.update (st : RouteStore) (id : String) (u : UpdateRouteDto)
    (now : Nat) : ApiResponse × List Route :=
  match RoutesService.update st id u now with
  | .error msg =>
    (ApiResponse.mkError "Failed to update route" (some msg) 500, st.docs)
  | .ok (none, docs2) =>
    (ApiResponse.mkError "Route not found"
      (some ("No route found with ID: " ++ id)) 404, docs2)
  | .ok (some r, docs2) =>
    (ApiResponse.mkSuccess (Payload.route r) "Route updated successfully"
      defaultSuccessCode, docs2)

/-- HTTP `DELETE /routes/:id` handler (`RoutesController.remove`). -/
def RoutesController.remove (st : RouteStore) (id : String) :
    ApiResponse × List Route :=
  match RoutesService.remove st id with
  | .error msg =>
    (ApiResponse.mkError "Failed to delete route" (some msg) 500, st.docs)
  | .ok (none, docs2) =>
    (ApiResponse.mkError "Route not found"
      (some ("No route found with ID: " ++ id)) 404, docs2)
  | .ok (some r, docs2) =>
    (ApiResponse.mkSuccess (Payload.route r) "Route deleted successfully"
      defaultSuccessCode, docs2)

/-- Message pattern `route.create` handler (`RoutesController.createRoute`):
identical to the HTTP handler except that both `ApiResponse.success` and
`ApiResponse.error` are called without a status code, so the class defaults
(200 / 400) apply. -/
def RoutesController.createRoute (st : RouteStore) (body : CreateRouteBody)
    (nowMs : Nat) (uuid newId : String) : ApiResponse × List Route :=
  match RoutesService.create st body nowMs uuid newId with
  | .error msg =>
    (ApiResponse.mkError "Failed to create route" (some msg) defaultErrorCode,
      st.docs)
  | .ok (r, docs2) =>
    (ApiResponse.mkSuccess (Payload.route r) "Route created successfully"
      defaultSuccessCode, docs2)

/-- Message pattern `route.findAll` handler (`RoutesController.findAllRoutes`):
the payload is forwarded to the service as the filters object. -/
def RoutesController.findAllRoutes (st : RouteStore) (filters : PageFilters) :
    ApiResponse :=
  match RoutesService.findAll st filters with
  | .error msg =>
    ApiResponse.mkError "Failed to fetch routes" (some msg) defaultErrorCode
  | .ok inner =>
    ApiResponse.mkSuccess (Payload.wrapped inner) "Routes retrieved successfully"
      defaultSuccessCode

/-- Message pattern `route.findOne` handler (`RoutesController.findOneRoute`):
the not-found arm still passes `HttpStatus.NOT_FOUND` explicitly; the catch
arm uses the 400 default. -/
def RoutesController.findOneRoute (st : RouteStore) (id : String) :
    ApiResponse :=
  match RoutesService.findOne st id with
  | .error msg =>
    ApiResponse.mkError "Failed to fetch route" (some msg) defaultErrorCode
  | .ok none =>
    ApiResponse.mkError "Route not found"
      (some ("No route found with ID: " ++ id)) 404
  | .ok (some r) =>
    ApiResponse.mkSuccess (Payload.route r) "Route retrieved successfully"
      defaultSuccessCode

/-- Message pattern `route.update` handler (`RoutesController.updateRoute`). -/
def RoutesController.updateRoute (st : RouteStore) (id : String)
    (u : UpdateRouteDto) (now : Nat) : ApiResponse × List Route :=
  match RoutesService.update st id u now with
  | .error msg =>
    (ApiResponse.mkError "Failed to update route" (some msg) defaultErrorCode,
      st.docs)
  | .ok (none, docs2) =>
    (ApiResponse.mkError "Route not found"
      (some ("No route found with ID: " ++ id)) 404, docs2)
  | .ok (some r, docs2) =>
    (ApiResponse.mkSuccess (Payload.route r) "Route updated successfully"
      defaultSuccessCode, docs2)

/-- Message pattern `route.remove` handler (`RoutesController.removeRoute`). -/
def RoutesController.removeRoute (st : RouteStore) (id : String) :
    ApiResponse × List Route :=
  match RoutesService.remove st id with
  | .error msg =>
    (ApiResponse.mkError "Failed to delete route" (some msg) defaultErrorCode,
      st.docs)
  | .ok (none, docs2) =>
    (ApiResponse.mkError "Route not found"
      (some ("No route found with ID: " ++ id)) 404, docs2)
  | .ok (some r, docs2) =>
    (ApiResponse.mkSuccess (Payload.route r) "Route deleted successfully"
      defaultSuccessCode, docs2)

def badStore : RouteStore := ⟨[], some "boom"⟩

/-- Agreement of two envelopes on every field except `statusCode`. -/
def sameButStatus (a b : ApiResponse) : Prop :=
  a.success = b.success ∧ a.message = b.message ∧ a.data = b.data ∧
    a.errors = b.errors

theorem insertByCreatedAt_perm (r : Route) (l : List Route) :
    (insertByCreatedAt r l).Perm (r :: l) := by
  induction l with
  | nil => simp [insertByCreatedAt]
  | cons x xs ih =>
    simp only [insertByCreatedAt]
    split
    · exact List.Perm.refl _
    · exact (ih.cons x).trans (List.Perm.swap r x xs)

theorem sortByCreatedAtDesc_perm (l : List Route) :
    (sortByCreatedAtDesc l).Perm l := by
  induction l with
  | nil => simp [sortByCreatedAtDesc]
  | cons x xs ih =>
    exact (insertByCreatedAt_perm x (sortByCreatedAtDesc xs)).trans (ih.cons x)

theorem insertByCreatedAt_sorted (r : Route) (l : List Route)
    (h : SortedDesc l) : SortedDesc (insertByCreatedAt r l) := by
  induction l with
  | nil => simp [insertByCreatedAt, SortedDesc]
  | cons x xs ih =>
    rcases h with _ | ⟨hx, hxs⟩
    by_cases hc : createdDesc r x = true
    · simp only [insertByCreatedAt, hc, if_true]
      refine List.Pairwise.cons ?_ (List.Pairwise.cons hx hxs)
      intro y hy
      rcases List.mem_cons.mp hy with rfl | hy
      · simpa [createdDesc] using hc
      · have h1 : y.createdAt ≤ x.createdAt := hx y hy
        have h2 : x.createdAt ≤ r.createdAt := by simpa [createdDesc] using hc
        omega
    · simp only [insertByCreatedAt, hc, if_false]
      refine List.Pairwise.cons ?_ (ih hxs)
      intro y hy
      have hy2 : y ∈ r :: xs := (insertByCreatedAt_perm r xs).mem_iff.mp hy
      rcases List.mem_cons.mp hy2 with rfl | hy3
      · have h3 : ¬ (x.createdAt ≤ y.createdAt) := by
          simpa [createdDesc] using hc
        omega
      · exact hx y hy3

theorem sortByCreatedAtDesc_sorted (l : List Route) :
    SortedDesc (sortByCreatedAtDesc l) := by
  induction l with
  | nil => simp [sortByCreatedAtDesc, SortedDesc]
  | cons x xs ih => exact insertByCreatedAt_sorted x _ ih

theorem pageSlice_sublist (docs : List Route) (page limit : Nat) :
    (pageSlice docs page limit).Sublist (sortByCreatedAtDesc docs) :=
  (List.take_sublist _ _).trans (List.drop_sublist _ _)

/-- C1: over any collection state with the store healthy, `findAll(page,
limit)` with `page ≥ 1` and `limit ≥ 1` returns a sorted-by-`createdAt`-
descending view of the collection, skips exactly `(page − 1) × limit` records
and returns at most `limit` of them, and the reported `total` is the count of
all routes in the collection; absent filters default to `page = 1`,
`limit = 10`. -/
theorem C1_findAll_pagination (st : RouteStore) (page limit : Nat)
    (hf : st.failure = none) (_hp : 1 ≤ page) (_hl : 1 ≤ limit) :
    RoutesService.findAll st ⟨some limit, some page⟩ =
        Except.ok (InnerResponse.mkSuccess
          ⟨((sortByCreatedAtDesc st.docs).drop ((page - 1) * limit)).take limit,
            st.docs.length⟩
          "Routes  retrieved successfully" 200)
      ∧ (sortByCreatedAtDesc st.docs).Perm st.docs
      ∧ SortedDesc (sortByCreatedAtDesc st.docs)
      ∧ (((sortByCreatedAtDesc st.docs).drop ((page - 1) * limit)).take limit).length
          ≤ limit
      ∧ SortedDesc
          (((sortByCreatedAtDesc st.docs).drop ((page - 1) * limit)).take limit)
      ∧ RoutesService.findAll st ⟨none, none⟩ =
          RoutesService.findAll st ⟨some 10, some 1⟩ := by
  refine ⟨?_, sortByCreatedAtDesc_perm _, sortByCreatedAtDesc_sorted _, ?_, ?_, ?_⟩
  · simp [RoutesService.findAll, hf, pageSlice]
  · exact List.length_take_le _ _
  · exact List.Pairwise.sublist (pageSlice_sublist st.docs page limit)
      (sortByCreatedAtDesc_sorted st.docs)
  · simp [RoutesService.findAll, hf]

theorem C1_findAll_pagination_witness :
    RoutesService.findAll storeAB ⟨some 10, some 1⟩ =
        Except.ok (InnerResponse.mkSuccess
          ⟨((sortByCreatedAtDesc storeAB.docs).drop ((1 - 1) * 10)).take 10,
            storeAB.docs.length⟩
          "Routes  retrieved successfully" 200)
      ∧ (sortByCreatedAtDesc storeAB.docs).Perm storeAB.docs
      ∧ SortedDesc (sortByCreatedAtDesc storeAB.docs)
      ∧ (((sortByCreatedAtDesc storeAB.docs).drop ((1 - 1) * 10)).take 10).length
          ≤ 10
      ∧ SortedDesc
          (((sortByCreatedAtDesc storeAB.docs).drop ((1 - 1) * 10)).take 10)
      ∧ RoutesService.findAll storeAB ⟨none, none⟩ =
          RoutesService.findAll storeAB ⟨some 10, some 1⟩ :=
  C1_findAll_pagination storeAB 1 10 rfl (by decide) (by decide)

theorem findById_eraseP_self (docs : List Route) (id : String)
    (hnd : (docs.map Route.id).Nodup) :
    findById (docs.eraseP (fun x => x.id == id)) id = none := by
  induction docs with
  | nil => rfl
  | cons x xs ih =>
    rcases List.nodup_cons.mp hnd with ⟨hxnot, hxs⟩
    by_cases hx : x.id = id
    · rw [List.eraseP_cons_of_pos (by simp [hx])]
      apply List.find?_eq_none.mpr
      intro y hy hcontra
      exact hxnot (by
        rw [List.mem_map]
        exact ⟨y, hy, by rw [hx]; exact beq_iff_eq.mp hcontra⟩)
    · rw [List.eraseP_cons_of_neg (by simp [hx])]
      unfold findById
      rw [List.find?_cons_of_neg _ (by simp [hx])]
      exact ih hxs

/-- C4: on an id absent from the store, `findOne`, `update` and `remove` each
return the `null` not-found sentinel rather than a thrown error; removing an
already-removed id again returns the sentinel; and the sentinel is a value
distinct from any thrown store failure. -/
theorem C4_notfound_sentinel (st : RouteStore) (id : String)
    (u : UpdateRouteDto) (now : Nat) (hf : st.failure = none)
    (hid : findById st.docs id = none) :
    RoutesService.findOne st id = Except.ok none
      ∧ RoutesService.update st id u now = Except.ok (none, st.docs)
      ∧ RoutesService.remove st id = Except.ok (none, st.docs)
      ∧ (∀ msg, RoutesService.findOne st id ≠ Except.error msg)
      ∧ (∀ st2 r docs2, st2.failure = none →
          (st2.docs.map Route.id).Nodup →
          RoutesService.remove st2 id = Except.ok (some r, docs2) →
          RoutesService.remove ⟨docs2, none⟩ id = Except.ok (none, docs2)) := by
  refine ⟨?_, ?_, ?_, ?_, ?_⟩
  · simp [RoutesService.findOne, hf, hid]
  · simp [RoutesService.update, hf, hid]
  · simp [RoutesService.remove, hf, hid]
  · intro msg
    simp [RoutesService.findOne, hf, hid]
  · intro st2 r docs2 h2 hnd hrem
    simp only [RoutesService.remove, h2] at hrem
    cases hfind : findById st2.docs id with
    | none => rw [hfind] at hrem; simp at hrem
    | some r0 =>
      rw [hfind] at hrem
      have hdocs2 : docs2 = st2.docs.eraseP (fun x => x.id == id) := by
        have := (Except.ok.injEq _ _).mp hrem
        exact (Prod.mk.injEq _ _ _ _).mp this |>.2.symm
      simp only [RoutesService.remove]
      rw [hdocs2]
      rw [show findById (st2.docs.eraseP (fun x => x.id == id)) id = none from
        findById_eraseP_self st2.docs id hnd]

theorem C4_notfound_sentinel_witness :
    RoutesService.findOne storeAB "missing" = Except.ok none
      ∧ RoutesService.update storeAB "missing" emptyUpdate 7 =
          Except.ok (none, storeAB.docs)
      ∧ RoutesService.remove storeAB "missing" = Except.ok (none, storeAB.docs)
      ∧ (∀ msg, RoutesService.findOne storeAB "missing" ≠ Except.error msg)
      ∧ (∀ st2 r docs2, st2.failure = none →
          (st2.docs.map Route.id).Nodup →
          RoutesService.remove st2 "missing" = Except.ok (some r, docs2) →
          RoutesService.remove ⟨docs2, none⟩ "missing" =
            Except.ok (none, docs2)) :=
  C4_notfound_sentinel storeAB "missing" emptyUpdate 7 rfl (by decide)

theorem findById_map_replace (l : List Route) (id : String) (r2 : Route)
    (h2 : r2.id = id) :
    findById (l.map (fun x => if x.id == id then r2 else x)) id =
      if (findById l id).isSome then some r2 else none := by
  induction l with
  | nil => simp [findById]
  | cons x xs ih =>
    by_cases hx : x.id = id
    · simp [findById, List.find?_cons, hx, h2]
    · have hxb : (x.id == id) = false := by simp [hx]
      simp [findById, List.find?_cons, hx, hxb] at ih ⊢
      exact ih

/-- C8: updating an existing route applies a partial top-level merge and
returns the post-update entity: each field present in the partial takes the
new value (nested objects replaced wholesale), each absent field keeps the
stored value, identifiers and `createdAt` are untouched, `updatedAt` is
refreshed, the merged document is what the store then holds for that id, and
every other document survives unchanged. -/
theorem C8_partial_update (st : RouteStore) (id : String) (u : UpdateRouteDto)
    (now : Nat) (r : Route) (hf : st.failure = none)
    (hr : findById st.docs id = some r) :
    RoutesService.update st id u now =
        Except.ok (some (applyUpdate r u now),
          st.docs.map (fun x => if x.id == id then applyUpdate r u now else x))
      ∧ findById
          (st.docs.map (fun x => if x.id == id then applyUpdate r u now else x))
          id = some (applyUpdate r u now)
      ∧ (∀ x ∈ st.docs, x.id ≠ id →
          x ∈ st.docs.map (fun y => if y.id == id then applyUpdate r u now else y))
      ∧ (applyUpdate r u now).name = u.name.getD r.name
      ∧ (applyUpdate r u now).travelMode = u.travelMode.getD r.travelMode
      ∧ (applyUpdate r u now).distance = u.distance.getD r.distance
      ∧ (applyUpdate r u now).duration = u.duration.getD r.duration
      ∧ (applyUpdate r u now).origin = u.origin.getD r.origin
      ∧ (applyUpdate r u now).destination = u.destination.getD r.destination
      ∧ (applyUpdate r u now).waypoints = u.waypoints.getD r.waypoints
      ∧ (applyUpdate r u now).path = u.path.getD r.path
      ∧ (applyUpdate r u now).userId = (u.userId.map some).getD r.userId
      ∧ (applyUpdate r u now).routeId = r.routeId
      ∧ (applyUpdate r u now).id = r.id
      ∧ (applyUpdate r u now).createdAt = r.createdAt
      ∧ (applyUpdate r u now).updatedAt = now := by
  have hr2 : List.find? (fun x : Route => x.id == id) st.docs = some r := hr
  have hrid : r.id = id := by simpa using List.find?_some hr2
  refine ⟨?_, ?_, ?_, rfl, rfl, rfl, rfl, rfl, rfl, rfl, rfl, rfl, rfl, rfl,
    rfl, rfl⟩
  · simp [RoutesService.update, hf, hr]
  · rw [findById_map_replace st.docs id (applyUpdate r u now)
      (by simp [applyUpdate, hrid]), hr]
    simp
  · intro x hx hxid
    exact List.mem_map.mpr ⟨x, hx, by simp [hxid]⟩

theorem C8_partial_update_witness :
    RoutesService.update storeAB "idA" { emptyUpdate with name := some "X" } 300 =
        Except.ok (some (applyUpdate routeA { emptyUpdate with name := some "X" } 300),
          storeAB.docs.map (fun x =>
            if x.id == "idA"
            then applyUpdate routeA { emptyUpdate with name := some "X" } 300
            else x))
      ∧ findById
          (storeAB.docs.map (fun x =>
            if x.id == "idA"
            then applyUpdate routeA { emptyUpdate with name := some "X" } 300
            else x))
          "idA" = some (applyUpdate routeA { emptyUpdate with name := some "X" } 300)
      ∧ (∀ x ∈ storeAB.docs, x.id ≠ "idA" →
          x ∈ storeAB.docs.map (fun y =>
            if y.id == "idA"
            then applyUpdate routeA { emptyUpdate with name := some "X" } 300
            else y))
      ∧ (applyUpdate routeA { emptyUpdate with name := some "X" } 300).name =
          (some "X").getD routeA.name
      ∧ (applyUpdate routeA { emptyUpdate with name := some "X" } 300).travelMode =
          (none : Option String).getD routeA.travelMode
      ∧ (applyUpdate routeA { emptyUpdate with name := some "X" } 300).distance =
          (none : Option Distance).getD routeA.distance
      ∧ (applyUpdate routeA { emptyUpdate with name := some "X" } 300).duration =
          (none : Option Duration).getD routeA.duration
      ∧ (applyUpdate routeA { emptyUpdate with name := some "X" } 300).origin =
          (none : Option Coordinate).getD routeA.origin
      ∧ (applyUpdate routeA { emptyUpdate with name := some "X" } 300).destination =
          (none : Option Coordinate).getD routeA.destination
      ∧ (applyUpdate routeA { emptyUpdate with name := some "X" } 300).waypoints =
          (none : Option (List Coordinate)).getD routeA.waypoints
      ∧ (applyUpdate routeA { emptyUpdate with name := some "X" } 300).path =
          (none : Option (List Coordinate)).getD routeA.path
      ∧ (applyUpdate routeA { emptyUpdate with name := some "X" } 300).userId =
          ((none : Option String).map some).getD routeA.userId
      ∧ (applyUpdate routeA { emptyUpdate with name := some "X" } 300).routeId =
          routeA.routeId
      ∧ (applyUpdate routeA { emptyUpdate with name := some "X" } 300).id =
          routeA.id
      ∧ (applyUpdate routeA { emptyUpdate with name := some "X" } 300).createdAt =
          routeA.createdAt
      ∧ (applyUpdate routeA { emptyUpdate with name := some "X" } 300).updatedAt =
          300 :=
  C8_partial_update storeAB "idA" { emptyUpdate with name := some "X" } 300
    routeA rfl (by decide)

/-- C10: the persisted `routeId` is always the freshly generated identifier.
The object spread `{ ...createRouteDto, routeId }` places the generated key
after the body's keys, so `create` behaves identically whatever `routeId` the
client smuggled into the body, and any successful create stores the
server-generated identifier. -/
theorem C10_server_generated_routeId (st : RouteStore) (body : CreateRouteBody)
    (c1 c2 : Option String) (now : Nat) (uuid newId : String) :
    RoutesService.create st { body with routeId := c1 } now uuid newId =
        RoutesService.create st { body with routeId := c2 } now uuid newId
      ∧ (∀ route docs2,
          RoutesService.create st body now uuid newId = Except.ok (route, docs2) →
          route.routeId = generateRouteId now uuid ∧ route ∈ docs2) := by
  constructor
  · rfl
  · intro route docs2 h
    rcases st with ⟨docs, fl⟩
    cases fl with
    | some e => simp [RoutesService.create] at h
    | none =>
      simp only [RoutesService.create, withGeneratedRouteId, buildRouteDoc] at h
      split at h
      · rcases (Except.ok.injEq _ _).mp h with h3
        rcases (Prod.mk.injEq _ _ _ _).mp h3 with ⟨hroute, hdocs⟩
        subst hroute
        subst hdocs
        exact ⟨rfl, by simp⟩
      · exact absurd h (by simp)

theorem C10_server_generated_routeId_witness :
    (RoutesService.create ⟨[], none⟩ { bodyW with routeId := some "route-hack" }
        5 "abcd1234-e5f6" "obj1" =
      RoutesService.create ⟨[], none⟩ { bodyW with routeId := none }
        5 "abcd1234-e5f6" "obj1")
    ∧ (∀ route docs2,
        RoutesService.create ⟨[], none⟩ bodyW 5 "abcd1234-e5f6" "obj1" =
          Except.ok (route, docs2) →
        route.routeId = generateRouteId 5 "abcd1234-e5f6" ∧ route ∈ docs2) :=
  ⟨(C10_server_generated_routeId ⟨[], none⟩ bodyW (some "route-hack") none 5
      "abcd1234-e5f6" "obj1").1,
    (C10_server_generated_routeId ⟨[], none⟩ bodyW (some "route-hack") none 5
      "abcd1234-e5f6" "obj1").2⟩

/-- C5: the repository's `null` sentinel makes `findOne`/`update`/`remove`
answer `success = false`, 404, message `'Route not found'`; a thrown store
failure makes `create` answer 400 and every other handler 500, always with
the failure's message in `errors`. -/
theorem C5_error_envelope_policy (stOk stBad : RouteStore) (id : String)
    (u : UpdateRouteDto) (body : CreateRouteBody) (now : Nat)
    (uuid newId msg searchText : String) (page limit : Nat)
    (hok : stOk.failure = none) (hid : findById stOk.docs id = none)
    (hbad : stBad.failure = some msg) :
    RoutesController.findOne stOk id =
        ApiResponse.mkError "Route not found"
          (some ("No route found with ID: " ++ id)) 404
      ∧ (RoutesController.update stOk id u now).1 =
          ApiResponse.mkError "Route not found"
            (some ("No route found with ID: " ++ id)) 404
      ∧ (RoutesController.remove stOk id).1 =
          ApiResponse.mkError "Route not found"
            (some ("No route found with ID: " ++ id)) 404
      ∧ (RoutesController.create stBad body now uuid newId).1 =
          ApiResponse.mkError "Failed to create route" (some msg) 400
      ∧ RoutesController.findAll stBad limit page =
          ApiResponse.mkError "Failed to fetch routes" (some msg) 500
      ∧ RoutesController.findOne stBad id =
          ApiResponse.mkError "Failed to fetch route" (some msg) 500
      ∧ (RoutesController.update stBad id u now).1 =
          ApiResponse.mkError "Failed to update route" (some msg) 500
      ∧ (RoutesController.remove stBad id).1 =
          ApiResponse.mkError "Failed to delete route" (some msg) 500
      ∧ RoutesController.search stBad searchText page limit =
          ApiResponse.mkError "Failed to search routes" (some msg) 500 := by
  refine ⟨?_, ?_, ?_, ?_, ?_, ?_, ?_, ?_, ?_⟩ <;>
    simp [RoutesController.findOne, RoutesController.update,
      RoutesController.remove, RoutesController.create,
      RoutesController.findAll, RoutesController.search,
      RoutesService.findOne, RoutesService.update, RoutesService.remove,
      RoutesService.create, RoutesService.findAll, RoutesService.searchRoutes,
      hok, hid, hbad]

theorem C5_error_envelope_policy_witness :
    RoutesController.findOne storeAB "missing" =
        ApiResponse.mkError "Route not found"
          (some ("No route found with ID: " ++ "missing")) 404
      ∧ (RoutesController.update storeAB "missing" emptyUpdate 7).1 =
          ApiResponse.mkError "Route not found"
            (some ("No route found with ID: " ++ "missing")) 404
      ∧ (RoutesController.remove storeAB "missing").1 =
          ApiResponse.mkError "Route not found"
            (some ("No route found with ID: " ++ "missing")) 404
      ∧ (RoutesController.create badStore bodyW 5 "abcd1234-e5f6" "obj1").1 =
          ApiResponse.mkError "Failed to create route" (some "boom") 400
      ∧ RoutesController.findAll badStore 10 1 =
          ApiResponse.mkError "Failed to fetch routes" (some "boom") 500
      ∧ RoutesController.findOne badStore "missing" =
          ApiResponse.mkError "Failed to fetch route" (some "boom") 500
      ∧ (RoutesController.update badStore "missing" emptyUpdate 7).1 =
          ApiResponse.mkError "Failed to update route" (some "boom") 500
      ∧ (RoutesController.remove badStore "missing").1 =
          ApiResponse.mkError "Failed to delete route" (some "boom") 500
      ∧ RoutesController.search badStore "home" 1 10 =
          ApiResponse.mkError "Failed to search routes" (some "boom") 500 :=
  C5_error_envelope_policy storeAB badStore "missing" emptyUpdate bodyW 7
    "abcd1234-e5f6" "obj1" "boom" "home" 1 10 rfl (by decide) rfl

/-- C6 counterexample: on a concrete two-route collection the successful
`GET /routes` envelope's `data` is not the bare `{routes, total}` pair — it
is the service-level envelope wrapping that pair, i.e. a nested envelope. -/
theorem C6_counterexample :
    (RoutesController.findAll storeAB 10 1).data ≠
        some (Payload.pageData ⟨[routeB, routeA], 2⟩)
      ∧ RoutesController.findAll storeAB 10 1 =
          ApiResponse.mkSuccess
            (Payload.wrapped (InnerResponse.mkSuccess ⟨[routeB, routeA], 2⟩
              "Routes  retrieved successfully" 200))
            "Routes retrieved successfully" 200 := by
  exact ⟨by decide, by decide⟩

/-- C6 amended: every successful `GET /routes` request yields status 200 and
a single uniform envelope whose `data` is the service-level envelope, which
in turn wraps the `{routes, total}` pair (a nested envelope, not the bare
pair). -/
theorem C6_findAll_nested_envelope (st : RouteStore) (limit page : Nat)
    (hf : st.failure = none) :
    RoutesController.findAll st limit page =
        ApiResponse.mkSuccess
          (Payload.wrapped (InnerResponse.mkSuccess
            ⟨pageSlice st.docs page limit, st.docs.length⟩
            "Routes  retrieved successfully" 200))
          "Routes retrieved successfully" 200
      ∧ (RoutesController.findAll st limit page).statusCode = 200
      ∧ (RoutesController.findAll st limit page).success = true := by
  refine ⟨?_, ?_, ?_⟩ <;>
    simp [RoutesController.findAll, RoutesService.findAll, hf,
      defaultSuccessCode, ApiResponse.mkSuccess]

theorem C6_findAll_nested_envelope_witness :
    RoutesController.findAll storeAB 10 1 =
        ApiResponse.mkSuccess
          (Payload.wrapped (InnerResponse.mkSuccess
            ⟨pageSlice storeAB.docs 1 10, storeAB.docs.length⟩
            "Routes  retrieved successfully" 200))
          "Routes retrieved successfully" 200
      ∧ (RoutesController.findAll storeAB 10 1).statusCode = 200
      ∧ (RoutesController.findAll storeAB 10 1).success = true :=
  C6_findAll_nested_envelope storeAB 10 1 rfl

/-- C7: on the same repository outcome each message-pattern handler produces
the same envelope as its HTTP counterpart in `success`, `message`, `data` and
`errors`, and leaves the collection in the same state; only `statusCode`
differs, and exactly as the omitted-argument defaults dictate: 200 on
success, the class default 400 on a caught failure, and the explicitly
passed 404 (matching HTTP) on the not-found sentinel. -/
theorem C7_transport_equivalence (st : RouteStore) (body : CreateRouteBody)
    (now : Nat) (uuid newId id : String) (u : UpdateRouteDto)
    (limit page : Nat) :
    sameButStatus (RoutesController.createRoute st body now uuid newId).1
        (RoutesController.create st body now uuid newId).1
      ∧ (RoutesController.createRoute st body now uuid newId).2 =
          (RoutesController.create st body now uuid newId).2
      ∧ sameButStatus (RoutesController.findAllRoutes st ⟨some limit, some page⟩)
          (RoutesController.findAll st limit page)
      ∧ sameButStatus (RoutesController.findOneRoute st id)
          (RoutesController.findOne st id)
      ∧ sameButStatus (RoutesController.updateRoute st id u now).1
          (RoutesController.update st id u now).1
      ∧ (RoutesController.updateRoute st id u now).2 =
          (RoutesController.update st id u now).2
      ∧ sameButStatus (RoutesController.removeRoute st id).1
          (RoutesController.remove st id).1
      ∧ (RoutesController.removeRoute st id).2 =
          (RoutesController.remove st id).2
      ∧ (RoutesController.createRoute st body now uuid newId).1.statusCode =
          (if (RoutesController.createRoute st body now uuid newId).1.success
           then 200
           else if (RoutesController.create st body now uuid newId).1.statusCode = 404
           then 404 else 400)
      ∧ (RoutesController.findAllRoutes st ⟨some limit, some page⟩).statusCode =
          (if (RoutesController.findAllRoutes st ⟨some limit, some page⟩).success
           then 200
           else if (RoutesController.findAll st limit page).statusCode = 404
           then 404 else 400)
      ∧ (RoutesController.findOneRoute st id).statusCode =
          (if (RoutesController.findOneRoute st id).success then 200
           else if (RoutesController.findOne st id).statusCode = 404
           then 404 else 400)
      ∧ (RoutesController.updateRoute st id u now).1.statusCode =
          (if (RoutesController.updateRoute st id u now).1.success then 200
           else if (RoutesController.update st id u now).1.statusCode = 404
           then 404 else 400)
      ∧ (RoutesController.removeRoute st id).1.statusCode =
          (if (RoutesController.removeRoute st id).1.success then 200
           else if (RoutesController.remove st id).1.statusCode = 404
           then 404 else 400) := by
  have hc : ∀ r : Except String (Route × List Route), r = RoutesService.create st body now uuid newId →
      sameButStatus (RoutesController.createRoute st body now uuid newId).1
        (RoutesController.create st body now uuid newId).1
      ∧ (RoutesController.createRoute st body now uuid newId).2 =
          (RoutesController.create st body now uuid newId).2
      ∧ (RoutesController.createRoute st body now uuid newId).1.statusCode =
          (if (RoutesController.createRoute st body now uuid newId).1.success
           then 200
           else if (RoutesController.create st body now uuid newId).1.statusCode = 404
           then 404 else 400) := by
    intro r hr
    cases r with
    | error e =>
      simp [RoutesController.createRoute, RoutesController.create, ← hr,
        sameButStatus, ApiResponse.mkError, ApiResponse.mkSuccess,
        defaultErrorCode, defaultSuccessCode]
    | ok p =>
      simp [RoutesController.createRoute, RoutesController.create, ← hr,
        sameButStatus, ApiResponse.mkError, ApiResponse.mkSuccess,
        defaultErrorCode, defaultSuccessCode]
  have hfa : ∀ r : Except String InnerResponse,
      r = RoutesService.findAll st ⟨some limit, some page⟩ →
      sameButStatus (RoutesController.findAllRoutes st ⟨some limit, some page⟩)
        (RoutesController.findAll st limit page)
      ∧ (RoutesController.findAllRoutes st ⟨some limit, some page⟩).statusCode =
          (if (RoutesController.findAllRoutes st ⟨some limit, some page⟩).success
           then 200
           else if (RoutesController.findAll st limit page).statusCode = 404
           then 404 else 400) := by
    intro r hr
    cases r with
    | error e =>
      simp [RoutesController.findAllRoutes, RoutesController.findAll, ← hr,
        sameButStatus, ApiResponse.mkError, ApiResponse.mkSuccess,
        defaultErrorCode, defaultSuccessCode]
    | ok p =>
      simp [RoutesController.findAllRoutes, RoutesController.findAll, ← hr,
        sameButStatus, ApiResponse.mkError, ApiResponse.mkSuccess,
        defaultErrorCode, defaultSuccessCode]
  have hfo : ∀ r : Except String (Option Route),
      r = RoutesService.findOne st id →
      sameButStatus (RoutesController.findOneRoute st id)
        (RoutesController.findOne st id)
      ∧ (RoutesController.findOneRoute st id).statusCode =
          (if (RoutesController.findOneRoute st id).success then 200
           else if (RoutesController.findOne st id).statusCode = 404
           then 404 else 400) := by
    intro r hr
    cases r with
    | error e =>
      simp [RoutesController.findOneRoute, RoutesController.findOne, ← hr,
        sameButStatus, ApiResponse.mkError, ApiResponse.mkSuccess,
        defaultErrorCode, defaultSuccessCode]
    | ok p =>
      cases p <;>
        simp [RoutesController.findOneRoute, RoutesController.findOne, ← hr,
          sameButStatus, ApiResponse.mkError, ApiResponse.mkSuccess,
          defaultErrorCode, defaultSuccessCode]
  have hup : ∀ r : Except String (Option Route × List Route),
      r = RoutesService.update st id u now →
      sameButStatus (RoutesController.updateRoute st id u now).1
        (RoutesController.update st id u now).1
      ∧ (RoutesController.updateRoute st id u now).2 =
          (RoutesController.update st id u now).2
      ∧ (RoutesController.updateRoute st id u now).1.statusCode =
          (if (RoutesController.updateRoute st id u now).1.success then 200
           else if (RoutesController.update st id u now).1.statusCode = 404
           then 404 else 400) := by
    intro r hr
    cases r with
    | error e =>
      simp [RoutesController.updateRoute, RoutesController.update, ← hr,
        sameButStatus, ApiResponse.mkError, ApiResponse.mkSuccess,
        defaultErrorCode, defaultSuccessCode]
    | ok p =>
      rcases p with ⟨res, docs2⟩
      cases res <;>
        simp [RoutesController.updateRoute, RoutesController.update, ← hr,
          sameButStatus, ApiResponse.mkError, ApiResponse.mkSuccess,
          defaultErrorCode, defaultSuccessCode]
  have hrm : ∀ r : Except String (Option Route × List Route),
      r = RoutesService.remove st id →
      sameButStatus (RoutesController.removeRoute st id).1
        (RoutesController.remove st id).1
      ∧ (RoutesController.removeRoute st id).2 =
          (RoutesController.remove st id).2
      ∧ (RoutesController.removeRoute st id).1.statusCode =
          (if (RoutesController.removeRoute st id).1.success then 200
           else if (RoutesController.remove st id).1.statusCode = 404
           then 404 else 400) := by
    intro r hr
    cases r with
    | error e =>
      simp [RoutesController.removeRoute, RoutesController.remove, ← hr,
        sameButStatus, ApiResponse.mkError, ApiResponse.mkSuccess,
        defaultErrorCode, defaultSuccessCode]
    | ok p =>
      rcases p with ⟨res, docs2⟩
      cases res <;>
        simp [RoutesController.removeRoute, RoutesController.remove, ← hr,
          sameButStatus, ApiResponse.mkError, ApiResponse.mkSuccess,
          defaultErrorCode, defaultSuccessCode]
  obtain ⟨hc1, hc2, hc3⟩ := hc _ rfl
  obtain ⟨hfa1, hfa2⟩ := hfa _ rfl
  obtain ⟨hfo1, hfo2⟩ := hfo _ rfl
  obtain ⟨hup1, hup2, hup3⟩ := hup _ rfl
  obtain ⟨hrm1, hrm2, hrm3⟩ := hrm _ rfl
  exact ⟨hc1, hc2, hfa1, hfo1, hup1, hup2, hrm1, hrm2, hc3, hfa2, hfo2, hup3,
    hrm3⟩

theorem toksMatchHere_lits (p : List Char) : ∀ s : List Char,
    (toksMatchHere (p.map (fun c => RegexTok.lit c.toLower)) s = true ↔
      (p.map Char.toLower) <+: (s.map Char.toLower)) := by
  induction p with
  | nil => intro s; simp [toksMatchHere]
  | cons c cs ih =>
    intro s
    cases s with
    | nil => simp [toksMatchHere]
    | cons d ds =>
      simp [toksMatchHere, tokMatch, List.cons_prefix_cons, Bool.and_eq_true,
        beq_iff_eq, ih ds]

theorem toksFind_lits (p : List Char) : ∀ s : List Char,
    (toksFind (p.map (fun c => RegexTok.lit c.toLower)) s = true ↔
      (p.map Char.toLower) <:+: (s.map Char.toLower)) := by
  intro s
  induction s with
  | nil =>
    simp [toksFind, toksMatchHere_lits]
  | cons d ds ih =>
    rw [show toksFind (p.map (fun c => RegexTok.lit c.toLower)) (d :: ds) =
        (toksMatchHere (p.map (fun c => RegexTok.lit c.toLower)) (d :: ds) ||
          toksFind (p.map (fun c => RegexTok.lit c.toLower)) ds) from rfl]
    simp only [List.map_cons, List.infix_cons_iff, Bool.or_eq_true,
      toksMatchHere_lits, ih]

theorem parseSearchRegex_no_meta (s : String)
    (h : ∀ c ∈ s.toList, isRegexMeta c = false) :
    parseSearchRegex s = s.toList.map (fun c => RegexTok.lit c.toLower) := by
  unfold parseSearchRegex
  apply List.map_congr_left
  intro c hc
  have hdot : ¬ c = '.' := by
    intro hd
    subst hd
    have h2 := h _ hc
    simp [isRegexMeta, regexMetaChars] at h2
  simp [hdot]

theorem regexTest_eq_containsCI (pattern subject : String)
    (h : ∀ c ∈ pattern.toList, isRegexMeta c = false) :
    regexTest pattern subject = containsCI subject pattern := by
  unfold regexTest containsCI
  rw [parseSearchRegex_no_meta pattern h, Bool.eq_iff_iff, toksFind_lits]
  simp

theorem routeMatchesSearch_eq_spec (text : String) (r : Route)
    (h : ∀ c ∈ text.toList, isRegexMeta c = false) :
    routeMatchesSearch text r = specMatchesSearch text r := by
  have hfield : ∀ f : Option String,
      fieldRegexMatch text f = fieldContainsCI text f := by
    intro f
    cases f with
    | none => rfl
    | some s => simp [fieldRegexMatch, fieldContainsCI,
        regexTest_eq_containsCI text s h]
  simp [routeMatchesSearch, specMatchesSearch, hfield]

/-- C2 counterexample: `searchText` is passed to `$regex` unescaped, so it is
interpreted as a regular expression, not a literal substring.  On a concrete
route none of whose five searched fields contains a `'.'` character, the
search for `"."` nevertheless matches (the metacharacter matches any
character), while the spec's case-insensitive-substring reading rejects it. -/
theorem C2_counterexample :
    routeMatchesSearch "." routeA = true
      ∧ specMatchesSearch "." routeA = false
      ∧ RoutesService.searchRoutes ⟨[routeA], none⟩ "." ⟨none, none⟩ =
          Except.ok (InnerResponse.mkSuccess ⟨[routeA], 1⟩
            "Routes  retrieved successfully" 200) :=
  ⟨by decide, by decide, by rfl⟩

/-- C2 amended: for any `searchText` free of regex metacharacters the search
returns exactly the routes one of whose five fields (`routeId`, `name`,
`origin.name`, `destination.name`, any `waypoints[].name`) contains
`searchText` as a case-insensitive substring, with `total` counting all such
matches regardless of the requested page; for general `searchText` the match
is regular-expression matching, not substring containment. -/
theorem C2_search_substring (st : RouteStore) (text : String)
    (filters : PageFilters) (hf : st.failure = none)
    (h : ∀ c ∈ text.toList, isRegexMeta c = false) :
    RoutesService.searchRoutes st text filters =
        Except.ok (InnerResponse.mkSuccess
          ⟨((sortByCreatedAtDesc (st.docs.filter (routeMatchesSearch text))).drop
              ((filters.page.getD 1 - 1) * filters.limit.getD 10)).take
              (filters.limit.getD 10),
            (st.docs.filter (routeMatchesSearch text)).length⟩
          "Routes  retrieved successfully" 200)
      ∧ st.docs.filter (routeMatchesSearch text) =
          st.docs.filter (specMatchesSearch text)
      ∧ (∀ r : Route, routeMatchesSearch text r = true ↔
          (containsCI r.routeId text = true ∨ containsCI r.name text = true ∨
            fieldContainsCI text r.origin.name = true ∨
            fieldContainsCI text r.destination.name = true ∨
            (∃ w ∈ r.waypoints, fieldContainsCI text w.name = true))) := by
  refine ⟨?_, ?_, ?_⟩
  · simp [RoutesService.searchRoutes, hf]
  · exact List.filter_congr (fun r _ => routeMatchesSearch_eq_spec text r h)
  · intro r
    rw [routeMatchesSearch_eq_spec text r h]
    simp only [specMatchesSearch, fieldContainsCI, Bool.or_eq_true,
      List.any_eq_true]
    tauto

theorem C2_search_substring_witness :
    RoutesService.searchRoutes storeAB "home" ⟨some 10, some 1⟩ =
        Except.ok (InnerResponse.mkSuccess
          ⟨((sortByCreatedAtDesc
                (storeAB.docs.filter (routeMatchesSearch "home"))).drop
              (((⟨some 10, some 1⟩ : PageFilters).page.getD 1 - 1) *
                (⟨some 10, some 1⟩ : PageFilters).limit.getD 10)).take
              ((⟨some 10, some 1⟩ : PageFilters).limit.getD 10),
            (storeAB.docs.filter (routeMatchesSearch "home")).length⟩
          "Routes  retrieved successfully" 200)
      ∧ storeAB.docs.filter (routeMatchesSearch "home") =
          storeAB.docs.filter (specMatchesSearch "home")
      ∧ (∀ r : Route, routeMatchesSearch "home" r = true ↔
          (containsCI r.routeId "home" = true ∨
            containsCI r.name "home" = true ∨
            fieldContainsCI "home" r.origin.name = true ∨
            fieldContainsCI "home" r.destination.name = true ∨
            (∃ w ∈ r.waypoints, fieldContainsCI "home" w.name = true))) :=
  C2_search_substring storeAB "home" ⟨some 10, some 1⟩ rfl (by decide)

theorem digitChar_ofNat (d : Nat) (h : d < 10) :
    isDigitChar (Char.ofNat (48 + d)) = true := by
  interval_cases d <;> decide

theorem natToDecimalAux_digits (fuel : Nat) : ∀ n acc, n < fuel →
    (∀ c ∈ acc, isDigitChar c = true) →
    ∀ c ∈ natToDecimalAux fuel n acc, isDigitChar c = true := by
  induction fuel with
  | zero => intro n acc h; exact absurd h (Nat.not_lt_zero n)
  | succ f ih =>
    intro n acc hn hacc c hc
    simp only [natToDecimalAux] at hc
    by_cases h10 : n < 10
    · rw [if_pos h10] at hc
      rcases List.mem_cons.mp hc with rfl | hmem
      · exact digitChar_ofNat n h10
      · exact hacc c hmem
    · rw [if_neg h10] at hc
      refine ih (n / 10) _ ?_ ?_ c hc
      · have hlt : n / 10 < n := Nat.div_lt_self (by omega) (by omega)
        omega
      · intro d hd
        rcases List.mem_cons.mp hd with rfl | hmem
        · exact digitChar_ofNat (n % 10) (Nat.mod_lt n (by omega))
        · exact hacc d hmem

theorem natToDecimalAux_ne_nil (fuel : Nat) : ∀ n acc, n < fuel →
    natToDecimalAux fuel n acc ≠ [] := by
  induction fuel with
  | zero => intro n acc h; exact absurd h (Nat.not_lt_zero n)
  | succ f ih =>
    intro n acc hn
    simp only [natToDecimalAux]
    by_cases h10 : n < 10
    · rw [if_pos h10]
      exact List.cons_ne_nil _ _
    · rw [if_neg h10]
      refine ih (n / 10) _ ?_
      have hlt : n / 10 < n := Nat.div_lt_self (by omega) (by omega)
      omega

theorem natToDecimal_digits (n : Nat) :
    ∀ c ∈ natToDecimal n, isDigitChar c = true :=
  natToDecimalAux_digits (n + 1) n [] (Nat.lt_succ_self n) (by simp)

theorem natToDecimal_ne_nil (n : Nat) : natToDecimal n ≠ [] :=
  natToDecimalAux_ne_nil (n + 1) n [] (Nat.lt_succ_self n)

theorem takeWhile_append_of_all (p : Char → Bool) (l r : List Char)
    (h : ∀ c ∈ l, p c = true) :
    (l ++ r).takeWhile p = l ++ r.takeWhile p := by
  induction l with
  | nil => simp
  | cons x xs ih =>
    simp only [List.cons_append, List.takeWhile_cons, h x (by simp), if_true,
      List.cons.injEq, true_and]
    exact ih (fun c hc => h c (by simp [hc]))

theorem dropWhile_append_of_all (p : Char → Bool) (l r : List Char)
    (h : ∀ c ∈ l, p c = true) :
    (l ++ r).dropWhile p = r.dropWhile p := by
  induction l with
  | nil => simp
  | cons x xs ih =>
    simp only [List.cons_append, List.dropWhile_cons, h x (by simp), if_true]
    exact ih (fun c hc => h c (by simp [hc]))

theorem dropLiteral_append (l s : List Char) : dropLiteral l (l ++ s) = some s := by
  induction l with
  | nil => rfl
  | cons c cs ih => simp [dropLiteral, ih]

/-- C3: the `routeId` of a created route is
`route-<timestamp digits>-<first 8 hex chars of the UUID>`: assuming the
generated v4 UUID string starts with eight hexadecimal characters, the
generated identifier is non-empty and matches the
`route-<digits>-<8 hex chars>` pattern, and every successful create returns
an entity carrying exactly that identifier. -/
theorem C3_routeId_format (nowMs : Nat) (uuid : String)
    (hlen : 8 ≤ uuid.toList.length)
    (hhex : ∀ c ∈ uuid.toList.take 8, isHexDigitChar c = true) :
    matchesRouteIdPattern (generateRouteId nowMs uuid) = true
      ∧ generateRouteId nowMs uuid ≠ ""
      ∧ (∀ st body newId route docs2,
          RoutesService.create st body nowMs uuid newId =
            Except.ok (route, docs2) →
          route.routeId = generateRouteId nowMs uuid) := by
  refine ⟨?_, ?_, ?_⟩
  · have h1 : (generateRouteId nowMs uuid).toList =
        "route-".toList ++ (natToDecimal nowMs ++ '-' :: uuid.toList.take 8) :=
      rfl
    unfold matchesRouteIdPattern
    rw [h1, dropLiteral_append]
    have h2 : (natToDecimal nowMs ++ '-' :: uuid.toList.take 8).takeWhile
        isDigitChar = natToDecimal nowMs ++
          (('-' :: uuid.toList.take 8).takeWhile isDigitChar) :=
      takeWhile_append_of_all _ _ _ (natToDecimal_digits nowMs)
    have h3 : (natToDecimal nowMs ++ '-' :: uuid.toList.take 8).dropWhile
        isDigitChar = ('-' :: uuid.toList.take 8).dropWhile isDigitChar :=
      dropWhile_append_of_all _ _ _ (natToDecimal_digits nowMs)
    have h4 : ('-' :: uuid.toList.take 8).takeWhile isDigitChar = [] := by
      simp [List.takeWhile_cons, isDigitChar]
    have h5 : ('-' :: uuid.toList.take 8).dropWhile isDigitChar =
        '-' :: uuid.toList.take 8 := by
      simp [List.dropWhile_cons, isDigitChar]
    simp only [h2, h3, h4, h5, List.append_nil]
    have h6 : (natToDecimal nowMs).isEmpty = false := by
      cases hnd : natToDecimal nowMs with
      | nil => exact absurd hnd (natToDecimal_ne_nil nowMs)
      | cons c cs => rfl
    have h7 : (uuid.toList.take 8).length = 8 := by
      rw [List.length_take]
      omega
    simp only [h6, h7, List.all_eq_true, Bool.not_false, Bool.true_and,
      Bool.and_eq_true, beq_iff_eq]
    simpa using hhex
  · intro hcontra
    have h8 : (generateRouteId nowMs uuid).toList = ("" : String).toList := by
      rw [hcontra]
    simp only [generateRouteId] at h8
    exact absurd h8 (by simp [String.toList])
  · intro st body newId route docs2 h
    rcases st with ⟨docs, fl⟩
    cases fl with
    | some e => simp [RoutesService.create] at h
    | none =>
      simp only [RoutesService.create, withGeneratedRouteId, buildRouteDoc] at h
      split at h
      · rcases (Except.ok.injEq _ _).mp h with h3
        rcases (Prod.mk.injEq _ _ _ _).mp h3 with ⟨hroute, hdocs⟩
        subst hroute
        rfl
      · exact absurd h (by simp)

theorem C3_routeId_format_witness :
    matchesRouteIdPattern (generateRouteId 1712 "a1b2c3d4-e5f6") = true
      ∧ generateRouteId 1712 "a1b2c3d4-e5f6" ≠ ""
      ∧ (∀ st body newId route docs2,
          RoutesService.create st body 1712 "a1b2c3d4-e5f6" newId =
            Except.ok (route, docs2) →
          route.routeId = generateRouteId 1712 "a1b2c3d4-e5f6") :=
  C3_routeId_format 1712 "a1b2c3d4-e5f6" (by decide) (by decide)

/-- C9: the program persists routes with an empty `path`, contrary to the
claimed invariant (and to the intent signalled by `@IsNotEmpty` on
`CreateRouteDto.path`): a create whose body carries `path: []` passes
`save()` — Mongoose (≥ 5) `required` accepts an empty array, no
`ValidationPipe` is registered, and `@IsNotEmpty` accepts `[]` anyway — and
a `PATCH` carrying `path: []` is likewise persisted, `findByIdAndUpdate`
running no validators.  Evaluated here at both failing inputs over concrete
stores whose routes all start with non-empty paths. -/
theorem C9_empty_path_persisted :
    RoutesService.create ⟨[], none⟩ { bodyW with path := [] } 5 "abcd1234-e5f6"
        "obj1" = Except.ok (emptyPathRoute, [emptyPathRoute])
      ∧ emptyPathRoute.path = []
      ∧ storeAB.docs.all (fun r => !r.path.isEmpty) = true
      ∧ RoutesService.update storeAB "idA" emptyPathUpdate 400 =
          Except.ok (some (applyUpdate routeA emptyPathUpdate 400),
            [applyUpdate routeA emptyPathUpdate 400, routeB])
      ∧ (applyUpdate routeA emptyPathUpdate 400).path = []
      ∧ findById [applyUpdate routeA emptyPathUpdate 400, routeB] "idA" =
          some (applyUpdate routeA emptyPathUpdate 400) :=
  ⟨by rfl, by rfl, by decide, by rfl, by rfl, by rfl⟩
